import Mathlib

/-! Inline-create select widget (`static/js/inline-create-select.js`).

A shallow embedding of the widget's script: the page is an explicit state
(`Page`), every handler of the script is a function on that state, and the
browser's event loop is a fold of `step` over a list of events.

Modelling conventions
* a DOM node held by a closure (`selectEl`, `modal`) is a reference: an index
  into `Page.elems`, resp. `Page.dialogs`;
* `Page.body` lists, in document order, the modal nodes currently attached to
  `document.body`; they are the only nodes carrying the id
  `inline-create-modal`;
* a configuration value or attribute, which is `null`/`undefined` or a
  string, is an `Option String`; it is truthy when it is a non-empty string;
* a value read from a response body is a `JsVal`, any JSON value;
* the creation endpoint is the environment: `fetch` records a pending request
  and a later `resolve` event carries the outcome of that request;
* `Page.notifierCalls` and `Page.onSuccessCalls` are traces of the calls made
  to `showToast` (text of the message and severity) and to the `onSuccess`
  callback;
* styling (class names, `lucide.createIcons`), focus handling, the request
  headers and the timed dismissal of a toast are not modelled.
-/

namespace InlineCreateSelect

/-! ## JavaScript helpers -/

/-- Code points removed by `String.prototype.trim` (ECMAScript WhiteSpace and
LineTerminator). -/
def isTrimChar (c : Char) : Bool :=
  let n := c.toNat
  n == 0x09 || n == 0x0A || n == 0x0B || n == 0x0C || n == 0x0D || n == 0x20 ||
  n == 0xA0 || n == 0x1680 || (0x2000 ≤ n && n ≤ 0x200A) || n == 0x2028 ||
  n == 0x2029 || n == 0x202F || n == 0x205F || n == 0x3000 || n == 0xFEFF

/-- Characters left once the leading trim characters are dropped. -/
def trimStartChars (l : List Char) : List Char :=
  l.dropWhile isTrimChar

/-- Characters left once the trailing trim characters are dropped. -/
def trimEndChars (l : List Char) : List Char :=
  (l.reverse.dropWhile isTrimChar).reverse

/-- Model of `String.prototype.trim`. -/
def jsTrim (str : String) : String :=
  ⟨trimStartChars (trimEndChars str.data)⟩

/-- Truthiness of a value that is `null`/`undefined` or a string. -/
def truthy : Option String → Bool
  | some v => v != ""
  | none => false

/-- Model of `x || d` where `d` is a string. -/
def jsOr (x : Option String) (d : String) : String :=
  match x with
  | some v => if v = "" then d else v
  | none => d

/-- The string behind a configuration value or attribute. The script reads it
only under a truthiness test, where the value is a string. -/
def toDOMString : Option String → String
  | some v => v
  | none => "undefined"

/-- A value read from a parsed JSON body; `undefined` is an absent field. A
number is given by what the script observes of it, whether it is non-zero and
the string `String(n)`; an array or object is given by its string conversion. -/
inductive JsVal where
  | undefined
  | null
  | bool (b : Bool)
  | num (nonzero : Bool) (text : String)
  | str (v : String)
  | obj (text : String)
deriving DecidableEq, Repr

/-- Truthiness of a JSON value. -/
def JsVal.truthy : JsVal → Bool
  | .undefined => false
  | .null => false
  | .bool b => b
  | .num nonzero _ => nonzero
  | .str v => v != ""
  | .obj _ => true

/-- Conversion to a DOMString, as done by the setter of `option.value` and
`select.value`. -/
def JsVal.toDOMString : JsVal → String
  | .undefined => "undefined"
  | .null => "null"
  | .bool true => "true"
  | .bool false => "false"
  | .num _ text => text
  | .str v => v
  | .obj text => text

/-- Conversion done by the setter of `textContent`, whose type is a nullable
DOMString: `null` and `undefined` give the empty text. -/
def JsVal.toTextContent : JsVal → String
  | .undefined => ""
  | .null => ""
  | .bool b => (JsVal.bool b).toDOMString
  | .num nonzero text => (JsVal.num nonzero text).toDOMString
  | .str v => v
  | .obj text => text

/-- Model of `x || y` on JSON values. -/
def jsOrVal (x y : JsVal) : JsVal :=
  if x.truthy then x else y

/-! ## Data model -/

/-- An `option` child of a choice control. -/
structure SelectOption where
  value : String
  text : String
deriving DecidableEq, Repr

/-- A notice rendered by `showToast` inside `#toast-root`. -/
structure Toast where
  message : String
  type : String
deriving DecidableEq, Repr

/-- A page element that scripts reach by id or hold by reference. An empty
`id` means the element has none. -/
structure Element where
  id : String
  value : String
  options : List SelectOption
  toasts : List Toast
deriving DecidableEq, Repr

/-- The `config` object received by `createModal`. -/
structure Config where
  apiUrl : String
  model : String
  parentSelectId : Option String
  requiresParent : Bool
  modalTitle : Option String
  modalHint : Option String
  labelField : Option String
  placeholder : Option String
  successMessage : Option String
  parentRequiredMessage : Option String
deriving DecidableEq, Repr

/-- The `options` object received by `InlineCreateSelect.init`. -/
structure InitOptions where
  selectId : String
  canAdd : Bool
  apiUrl : Option String
  model : Option String
  parentSelectId : Option String
  requiresParent : Bool
  modalTitle : Option String
  modalHint : Option String
  labelField : Option String
  placeholder : Option String
  successMessage : Option String
  parentRequiredMessage : Option String
deriving DecidableEq, Repr

/-- The attributes of an element matched by `[data-inline-create]`; `create`
is the value of the `data-inline-create` attribute itself, the others are the
results of `getAttribute`. -/
structure Marker where
  create : String
  select : Option String
  model : Option String
  parent : Option String
  requiresParent : Option String
  title : Option String
  hint : Option String
deriving DecidableEq, Repr

/-- The wrapper and add button built by `init` around one control, with what
the click listener of the button captured. -/
structure Augment where
  selectEl : Nat
  config : Config
deriving DecidableEq, Repr

/-- One modal instance built by `createModal`, with what its closures
captured and the state of its input, error line and submit button. -/
structure Dialog where
  selectEl : Nat
  config : Config
  onSuccess : Bool
  inputValue : String
  errorText : String
  errorHidden : Bool
  submitDisabled : Bool
deriving DecidableEq, Repr

/-- A request handed to `fetch`, not yet settled. `dialog` is the modal
instance whose continuation is attached to it; `body` is the payload object
given to `JSON.stringify`, as its list of fields. -/
structure Request where
  dialog : Nat
  url : String
  method : String
  body : List (String × String)
deriving DecidableEq, Repr

/-- The fields the script reads from a parsed response body; a body that is
a number, a string or an array has all of them `undefined`. -/
structure RespData where
  success : JsVal
  id : JsVal
  label : JsVal
  name : JsVal
  error : JsVal
deriving DecidableEq, Repr

/-- How a request settles. `parsed ok none` is a body that parses to `null`. -/
inductive Outcome where
  | rejected
  | unparseable (ok : Bool)
  | parsed (ok : Bool) (data : Option RespData)
deriving DecidableEq, Repr

/-- The state of the page as far as the widget reads or writes it. -/
structure Page where
  elems : List Element
  markers : List Marker
  augments : List Augment
  dialogs : List Dialog
  body : List Nat
  bodyOverflow : String
  pending : List Request
  notifierCalls : List (String × String)
  onSuccessCalls : List RespData
deriving DecidableEq, Repr

/-- A freshly loaded page: no augmentation, no modal, no request. -/
def Page.initial (elems : List Element) (markers : List Marker) : Page :=
  { elems := elems, markers := markers, augments := [], dialogs := [], body := [],
    bodyOverflow := "", pending := [], notifierCalls := [], onSuccessCalls := [] }

/-! ## DOM primitives -/

/-- Position of the first element carrying the id. -/
def lookupId (id : String) : List Element → Option Nat
  | [] => none
  | e :: es => if e.id = id then some 0 else (lookupId id es).map (· + 1)

/-- Model of `document.getElementById` over the page elements. -/
def getElementById (s : Page) (id : String) : Option Nat :=
  if id = "" then none else lookupId id s.elems

/-- Apply a change to the element behind a reference. -/
def updElem (s : Page) (r : Nat) (f : Element → Element) : Page :=
  match s.elems[r]? with
  | some e => { s with elems := s.elems.set r (f e) }
  | none => s

/-- Apply a change to the modal instance behind a reference. -/
def updDialog (s : Page) (d : Nat) (f : Dialog → Dialog) : Page :=
  match s.dialogs[d]? with
  | some dlg => { s with dialogs := s.dialogs.set d (f dlg) }
  | none => s

/-- Model of `selectEl.appendChild(opt)`. -/
def appendOption (s : Page) (r : Nat) (o : SelectOption) : Page :=
  updElem s r (fun e => { e with options := e.options ++ [o] })

/-- Model of `selectEl.value = v`: the control takes the value when one of its
options carries it, and has no selection otherwise. -/
def setValue (s : Page) (r : Nat) (v : String) : Page :=
  updElem s r (fun e => { e with value := if e.options.any (fun o => o.value = v) then v else "" })

/-! ## The script -/

/-- Model of `showToast(message, type)`. -/
def showToast (s : Page) (message : JsVal) (type : Option String) : Page :=
  let type := jsOr type "success"
  let s := { s with notifierCalls := s.notifierCalls ++ [(message.toTextContent, type)] }
  match getElementById s "toast-root" with
  | none => s
  | some root =>
    updElem s root (fun e => { e with toasts := e.toasts ++ [⟨message.toTextContent, type⟩] })

/-- Model of `close()` of the modal instance `d`. -/
def close (s : Page) (d : Nat) : Page :=
  { s with body := s.body.filter (fun m => m != d), bodyOverflow := "" }

/-- Model of `setError(msg)` of the modal instance `d`. -/
def setError (s : Page) (d : Nat) (msg : JsVal) : Page :=
  updDialog s d (fun dlg =>
    { dlg with errorText := (jsOrVal msg (.str "")).toTextContent, errorHidden := !msg.truthy })

/-- Model of `submitBtn.disabled = b` of the modal instance `d`. -/
def setDisabled (s : Page) (d : Nat) (b : Bool) : Page :=
  updDialog s d (fun dlg => { dlg with submitDisabled := b })

/-- Model of the call to `fetch` made by the modal instance `d`. -/
def fetch (s : Page) (d : Nat) (url : String) (payload : List (String × String)) : Page :=
  { s with pending := s.pending ++ [{ dialog := d, url := url, method := "POST", body := payload }] }

/-- The value `parentVal` the submit listener reads: the value of the element
carrying the parent id, or the empty string when there is none. -/
def parentVal (s : Page) (parentSelectId : String) : String :=
  match getElementById s parentSelectId with
  | some r =>
    match s.elems[r]? with
    | some e => e.value
    | none => ""
  | none => ""

/-- Model of the click listener of the submit button of modal instance `d`. -/
def submitHandler (s : Page) (d : Nat) : Page :=
  match s.dialogs[d]? with
  | none => s
  | some dlg =>
    let config := dlg.config
    let name := jsTrim dlg.inputValue
    let s := setError s d (.str "")
    if name = "" then
      setError s d (.str "Le nom est requis.")
    else
      let s := setDisabled s d true
      let payload := [("model", config.model), ("name", name)]
      if truthy config.parentSelectId then
        let parentVal := parentVal s (toDOMString config.parentSelectId)
        if parentVal ≠ "" then
          fetch s d config.apiUrl (payload ++ [("parent_id", parentVal)])
        else if config.requiresParent then
          let s := setError s d (.str
            (jsOr config.parentRequiredMessage "Veuillez d'abord sélectionner un élément parent."))
          setDisabled s d false
        else
          fetch s d config.apiUrl payload
      else
        fetch s d config.apiUrl payload

/-- Model of the continuation `({ ok, data }) => ...` of modal instance `d`,
for a body that is not `null`. -/
def onResponse (s : Page) (d : Nat) (ok : Bool) (data : RespData) : Page :=
  match s.dialogs[d]? with
  | none => s
  | some dlg =>
    if ok && data.success.truthy then
      let s := appendOption s dlg.selectEl
        { value := data.id.toDOMString, text := (jsOrVal data.label data.name).toTextContent }
      let s := setValue s dlg.selectEl data.id.toDOMString
      let s := showToast s
        (.str (jsOr dlg.config.successMessage "Valeur ajoutée et sélectionnée.")) none
      let s := close s d
      if dlg.onSuccess then { s with onSuccessCalls := s.onSuccessCalls ++ [data] } else s
    else
      let s := setError s d (jsOrVal data.error (.str "Erreur lors de l'ajout."))
      showToast s (jsOrVal data.error (.str "Erreur")) (some "error")

/-- Model of the `.catch` handler of modal instance `d`. -/
def onCatch (s : Page) (d : Nat) : Page :=
  let s := setError s d (.str "Erreur réseau.")
  showToast s (.str "Erreur réseau.") (some "error")

/-- Model of the promise chain `then/then/catch/finally` of modal instance `d`
once its request settles. Reading a property of a `null` body throws, which
the `.catch` handler receives. -/
def settle (s : Page) (d : Nat) : Outcome → Page
  | .parsed ok (some data) => setDisabled (onResponse s d ok data) d false
  | .parsed _ none => setDisabled (onCatch s d) d false
  | .unparseable _ => setDisabled (onCatch s d) d false
  | .rejected => setDisabled (onCatch s d) d false

/-- Model of `createModal(selectEl, config, onSuccess)`; `onSuccess` tells
whether a callback was passed. -/
def createModal (s : Page) (selectEl : Nat) (config : Config) (onSuccess : Bool) : Page :=
  let body :=
    match s.body.head? with
    | some existing => s.body.filter (fun m => m != existing)
    | none => s.body
  let modal := s.dialogs.length
  { s with
    dialogs := s.dialogs ++ [{ selectEl := selectEl, config := config, onSuccess := onSuccess,
                               inputValue := "", errorText := "", errorHidden := true,
                               submitDisabled := false }],
    bodyOverflow := "hidden",
    body := body ++ [modal] }

/-- Model of `InlineCreateSelect.init(options)`. -/
def init (s : Page) (options : InitOptions) : Page :=
  match getElementById s options.selectId with
  | none => s
  | some selectEl =>
    if !options.canAdd then s
    else
      let apiUrl := jsOr options.apiUrl "/api/reference/create/"
      if !truthy options.model then s
      else
        let model := toDOMString options.model
        let parentSelectId := if truthy options.parentSelectId then options.parentSelectId else none
        let requiresParent := options.requiresParent
        { s with augments := s.augments ++ [{
            selectEl := selectEl,
            config := {
              apiUrl := apiUrl, model := model, parentSelectId := parentSelectId,
              requiresParent := requiresParent, modalTitle := options.modalTitle,
              modalHint := options.modalHint, labelField := options.labelField,
              placeholder := options.placeholder, successMessage := options.successMessage,
              parentRequiredMessage := options.parentRequiredMessage } }] }

/-- The options `initAll` builds from one marker, when it does not skip it. -/
def markerOptions (el : Marker) : Option InitOptions :=
  let canAdd := el.create = "true" || el.create = "1"
  if !canAdd then none
  else if !truthy el.select || !truthy el.model then none
  else some {
    selectId := toDOMString el.select, model := el.model, canAdd := true,
    apiUrl := none,
    parentSelectId := if truthy el.parent then el.parent else none,
    requiresParent := el.requiresParent == some "true",
    modalTitle := if truthy el.title then el.title else none,
    modalHint := if truthy el.hint then el.hint else none,
    labelField := none, placeholder := none, successMessage := none,
    parentRequiredMessage := none }

/-- Model of the body of the `forEach` callback of `initAll`. -/
def initMarker (s : Page) (el : Marker) : Page :=
  match markerOptions el with
  | none => s
  | some options => init s options

/-- Model of `InlineCreateSelect.initAll()`. -/
def initAll (s : Page) : Page :=
  s.markers.foldl initMarker s

/-! ## Events -/

/-- What can happen on the page between two runs of the script. -/
inductive Event where
  | addClick (button : Nat)
  | typeName (d : Nat) (text : String)
  | selectValue (r : Nat) (v : String)
  | cancelClick (d : Nat)
  | backdropClick (d : Nat)
  | submitClick (d : Nat)
  | resolve (i : Nat) (o : Outcome)
deriving DecidableEq, Repr

/-- A click on the submit button of modal instance `d`: a disabled button
dispatches no click event, otherwise the listener runs. -/
def submitClick (s : Page) (d : Nat) : Page :=
  match s.dialogs[d]? with
  | none => s
  | some dlg => if dlg.submitDisabled then s else submitHandler s d

/-- The request at position `i` among the pending ones settles with outcome
`o`: the promise chain attached to it runs. -/
def resolve (s : Page) (i : Nat) (o : Outcome) : Page :=
  match s.pending[i]? with
  | none => s
  | some req => settle { s with pending := s.pending.eraseIdx i } req.dialog o

/-- One turn of the event loop. -/
def step (s : Page) : Event → Page
  | .addClick b =>
    match s.augments[b]? with
    | some a => createModal s a.selectEl a.config false
    | none => s
  | .typeName d text => updDialog s d (fun dlg => { dlg with inputValue := text })
  | .selectValue r v => setValue s r v
  | .cancelClick d => close s d
  | .backdropClick d => close s d
  | .submitClick d => submitClick s d
  | .resolve i o => resolve s i o

/-- The page after a sequence of events. -/
def run (s : Page) (es : List Event) : Page :=
  es.foldl step s

/-- Number of pending requests issued by modal instance `d`. -/
def inFlight (s : Page) (d : Nat) : Nat :=
  (s.pending.filter (fun r => r.dialog = d)).length

/-- The parent value sent with a request: present when a parent control is
configured and the element carrying its id has a non-empty value. -/
def selectedParent (s : Page) (config : Config) : Option String :=
  match config.parentSelectId with
  | none => none
  | some pid =>
    if pid = "" then none
    else if parentVal s pid = "" then none
    else some (parentVal s pid)

/-- Options and selected value of the element behind a reference. -/
def choiceAt (s : Page) (k : Nat) : Option (List SelectOption × String) :=
  (s.elems[k]?).map (fun e => (e.options, e.value))

/-- The modal list of a page: at most one modal, and only modals that were
built. -/
def ModalInv (s : Page) : Prop :=
  s.body.length ≤ 1 ∧ ∀ m ∈ s.body, m < s.dialogs.length

/-- Per dialog: nothing in flight, or one request in flight and the submit
button disabled. -/
def FlightInv (s : Page) : Prop :=
  ∀ d, inFlight s d = 0 ∨
    (inFlight s d = 1 ∧ ∃ dlg, s.dialogs[d]? = some dlg ∧ dlg.submitDisabled = true)

/-- A marker that `initAll` is to augment: affirmative flag, non-empty select
id and model, and an element carrying the select id. -/
def eligible (s : Page) (el : Marker) : Bool :=
  (el.create == "true" || el.create == "1") && truthy el.select && truthy el.model &&
    (getElementById s (toDOMString el.select)).isSome

/-- The control a marker gets augmented, if any. -/
def markerTarget (s : Page) (el : Marker) : Option Nat :=
  if eligible s el then getElementById s (toDOMString el.select) else none

/-! ## A sample page -/

/-- Elements of a sample form: a department control, a team control, a role
control and the toast container. -/
def sampleElems : List Element :=
  [ { id := "id_department", value := "",
      options := [{ value := "", text := "---------" }, { value := "7", text := "Ops" }],
      toasts := [] },
    { id := "id_team", value := "", options := [], toasts := [] },
    { id := "id_role", value := "", options := [], toasts := [] },
    { id := "toast-root", value := "", options := [], toasts := [] } ]

/-- Marker of the department control: enabled, parent required but no parent
control named. -/
def deptMarker : Marker :=
  { create := "true", select := some "id_department", model := some "department",
    parent := none, requiresParent := some "true", title := none, hint := none }

/-- Marker of the team control: enabled, with the department as required
parent. -/
def teamMarker : Marker :=
  { create := "1", select := some "id_team", model := some "team",
    parent := some "id_department", requiresParent := some "true", title := none, hint := none }

/-- Marker of the role control: well formed but not enabled. -/
def roleMarker : Marker :=
  { create := "false", select := some "id_role", model := some "role",
    parent := none, requiresParent := none, title := none, hint := none }

/-- The sample form as loaded. -/
def sampleLoaded : Page :=
  Page.initial sampleElems [deptMarker, roleMarker, teamMarker]

/-- The sample form once `initAll` has run. -/
def samplePage : Page :=
  initAll sampleLoaded

/-- Configuration `initAll` derives for the department control. -/
def deptConfig : Config :=
  { apiUrl := "/api/reference/create/", model := "department", parentSelectId := none,
    requiresParent := true, modalTitle := none, modalHint := none, labelField := none,
    placeholder := none, successMessage := none, parentRequiredMessage := none }

/-- Configuration `initAll` derives for the team control. -/
def teamConfig : Config :=
  { apiUrl := "/api/reference/create/", model := "team",
    parentSelectId := some "id_department", requiresParent := true, modalTitle := none,
    modalHint := none, labelField := none, placeholder := none, successMessage := none,
    parentRequiredMessage := none }

/-- A dialog as `createModal` builds it, with some text typed in. -/
def typedDialog (selectEl : Nat) (config : Config) (text : String) : Dialog :=
  { selectEl := selectEl, config := config, onSuccess := false, inputValue := text,
    errorText := "", errorHidden := true, submitDisabled := false }

/-- Department dialog opened, "x" typed. -/
def deptTyped : Page :=
  run samplePage [.addClick 0, .typeName 0 "x"]

/-- Department dialog opened, only blanks typed. -/
def deptBlank : Page :=
  run samplePage [.addClick 0, .typeName 0 "  \t "]

/-- Team dialog opened and "Core" typed while no department is selected. -/
def teamNoParent : Page :=
  run samplePage [.addClick 1, .typeName 0 "Core"]

/-- Department 7 selected, team dialog opened, " Core " typed. -/
def teamTyped : Page :=
  run samplePage [.selectValue 0 "7", .addClick 1, .typeName 0 " Core "]

/-- The same, after a click on the submit button. -/
def teamSubmitted : Page :=
  step teamTyped (.submitClick 0)

/-- The request issued by the team dialog. -/
def teamRequest : Request :=
  { dialog := 0, url := "/api/reference/create/", method := "POST",
    body := [("model", "team"), ("name", "Core"), ("parent_id", "7")] }

/-- A success body. -/
def createdBody : RespData :=
  { success := .bool true, id := .str "42", label := .str "Core", name := .undefined,
    error := .undefined }

/-- A failure body. -/
def refusedBody : RespData :=
  { success := .bool false, id := .undefined, label := .undefined, name := .undefined,
    error := .str "Name taken" }

/-- A body whose success flag is the string "false", with the fields of both
a success and a failure. -/
def stringFlagBody : RespData :=
  { success := .str "false", id := .str "42", label := .str "Core", name := .undefined,
    error := .str "Name taken" }

/-! ## Basic facts -/

section frame

variable (s : Page) (d : Nat) (f : Dialog → Dialog)

@[simp] theorem updDialog_elems : (updDialog s d f).elems = s.elems := by
  unfold updDialog; split <;> rfl

@[simp] theorem updDialog_body : (updDialog s d f).body = s.body := by
  unfold updDialog; split <;> rfl

@[simp] theorem updDialog_pending : (updDialog s d f).pending = s.pending := by
  unfold updDialog; split <;> rfl

@[simp] theorem updDialog_notifierCalls :
    (updDialog s d f).notifierCalls = s.notifierCalls := by
  unfold updDialog; split <;> rfl

@[simp] theorem updDialog_augments : (updDialog s d f).augments = s.augments := by
  unfold updDialog; split <;> rfl

@[simp] theorem updDialog_length : (updDialog s d f).dialogs.length = s.dialogs.length := by
  unfold updDialog; split <;> simp

theorem updDialog_get (k : Nat) :
    (updDialog s d f).dialogs[k]? = if d = k then (s.dialogs[k]?).map f else s.dialogs[k]? := by
  unfold updDialog
  split
  · next dlg h =>
    simp only [List.getElem?_set]
    split
    · next hk =>
      subst hk
      have hlt : d < s.dialogs.length := by
        rcases Nat.lt_or_ge d s.dialogs.length with h1 | h1
        · exact h1
        · rw [List.getElem?_eq_none h1] at h; cases h
      simp [hlt, h]
    · rfl
  · next h =>
    split
    · next hk => subst hk; simp [h]
    · rfl

@[simp] theorem updDialog_get_self (dlg : Dialog) (h : s.dialogs[d]? = some dlg) :
    (updDialog s d f).dialogs[d]? = some (f dlg) := by
  rw [updDialog_get]; simp [h]

theorem updDialog_get_ne (k : Nat) (h : d ≠ k) :
    (updDialog s d f).dialogs[k]? = s.dialogs[k]? := by
  rw [updDialog_get]; simp [h]

@[simp] theorem parentVal_updDialog (pid : String) :
    parentVal (updDialog s d f) pid = parentVal s pid := by
  simp [parentVal, getElementById]

end frame

theorem jsOr_ne_empty (x : Option String) (dflt : String) (h : dflt ≠ "") :
    jsOr x dflt ≠ "" := by
  unfold jsOr
  split
  · split
    · exact h
    · assumption
  · exact h

@[simp] theorem truthy_str (v : String) : (JsVal.str v).truthy = (v != "") := rfl

@[simp] theorem toTextContent_str (v : String) : (JsVal.str v).toTextContent = v := rfl

@[simp] theorem toDOMString_str (v : String) : (JsVal.str v).toDOMString = v := rfl

@[simp] theorem truthy_bool (b : Bool) : (JsVal.bool b).truthy = b := rfl

theorem jsOrVal_truthy (x y : JsVal) (h : y.truthy = true) : (jsOrVal x y).truthy = true := by
  unfold jsOrVal
  split
  · assumption
  · exact h

@[simp] theorem jsOrVal_empty (x : JsVal) :
    (jsOrVal x (.str "")).toTextContent = if x.truthy = true then x.toTextContent else "" := by
  unfold jsOrVal
  split <;> rfl

section frameElem

variable (s : Page) (r : Nat) (f : Element → Element)

@[simp] theorem updElem_dialogs : (updElem s r f).dialogs = s.dialogs := by
  unfold updElem; split <;> rfl

@[simp] theorem updElem_body : (updElem s r f).body = s.body := by
  unfold updElem; split <;> rfl

@[simp] theorem updElem_pending : (updElem s r f).pending = s.pending := by
  unfold updElem; split <;> rfl

@[simp] theorem updElem_notifierCalls : (updElem s r f).notifierCalls = s.notifierCalls := by
  unfold updElem; split <;> rfl

@[simp] theorem updElem_augments : (updElem s r f).augments = s.augments := by
  unfold updElem; split <;> rfl

theorem updElem_get (k : Nat) :
    (updElem s r f).elems[k]? = if r = k then (s.elems[k]?).map f else s.elems[k]? := by
  unfold updElem
  split
  · next e h =>
    simp only [List.getElem?_set]
    split
    · next hk =>
      subst hk
      have hlt : r < s.elems.length := by
        rcases Nat.lt_or_ge r s.elems.length with h1 | h1
        · exact h1
        · rw [List.getElem?_eq_none h1] at h; cases h
      simp [hlt, h]
    · rfl
  · next h =>
    split
    · next hk => subst hk; simp [h]
    · rfl

end frameElem

section frameToast

variable (s : Page) (message : JsVal) (type : Option String)

@[simp] theorem showToast_dialogs : (showToast s message type).dialogs = s.dialogs := by
  unfold showToast; dsimp only; split <;> simp

@[simp] theorem showToast_body : (showToast s message type).body = s.body := by
  unfold showToast; dsimp only; split <;> simp

@[simp] theorem showToast_pending : (showToast s message type).pending = s.pending := by
  unfold showToast; dsimp only; split <;> simp

@[simp] theorem showToast_augments : (showToast s message type).augments = s.augments := by
  unfold showToast; dsimp only; split <;> simp

@[simp] theorem showToast_notifierCalls :
    (showToast s message type).notifierCalls =
      s.notifierCalls ++ [(message.toTextContent, jsOr type "success")] := by
  unfold showToast; dsimp only; split <;> simp

/-- A toast changes at most the `toasts` of an element. -/
theorem showToast_elems_get (k : Nat) :
    ∃ g : Element → Element,
      (∀ e, (g e).options = e.options ∧ (g e).value = e.value ∧ (g e).id = e.id) ∧
      (showToast s message type).elems[k]? = (s.elems[k]?).map g := by
  unfold showToast
  dsimp only
  split
  · exact ⟨fun e => e, fun e => ⟨rfl, rfl, rfl⟩, by simp⟩
  · next root _ =>
    by_cases hk : root = k
    · refine ⟨fun e =>
          { e with toasts := e.toasts ++ [⟨message.toTextContent, jsOr type "success"⟩] },
        fun e => ⟨rfl, rfl, rfl⟩, ?_⟩
      rw [updElem_get]; simp [hk]
    · refine ⟨fun e => e, fun e => ⟨rfl, rfl, rfl⟩, ?_⟩
      rw [updElem_get]; simp [hk]

end frameToast

/-! ## Trimming -/

theorem all_of_all_dropWhile {α : Type} (p : α → Bool) :
    ∀ l : List α, (∀ x ∈ l.dropWhile p, p x = true) → ∀ x ∈ l, p x = true
  | [], _ => by simp
  | a :: t, h => by
    by_cases ha : p a = true
    · have ht : ∀ x ∈ t.dropWhile p, p x = true := by
        intro x hx; apply h; simpa [List.dropWhile, ha] using hx
      have := all_of_all_dropWhile p t ht
      intro x hx
      rcases List.mem_cons.1 hx with rfl | hx
      · exact ha
      · exact this x hx
    · have : a ∈ (a :: t).dropWhile p := by simp [List.dropWhile, ha]
      exact absurd (h a this) ha

theorem dropWhile_eq_nil_iff_all {α : Type} (p : α → Bool) (l : List α) :
    l.dropWhile p = [] ↔ ∀ x ∈ l, p x = true := by
  constructor
  · intro h; apply all_of_all_dropWhile p l; simp [h]
  · intro h; exact List.dropWhile_eq_nil_iff.2 h

theorem trimChars_eq_nil_iff (l : List Char) :
    trimStartChars (trimEndChars l) = [] ↔ ∀ c ∈ l, isTrimChar c = true := by
  unfold trimStartChars trimEndChars
  rw [dropWhile_eq_nil_iff_all]
  constructor
  · intro h
    have h1 : ∀ x ∈ l.reverse, isTrimChar x = true :=
      all_of_all_dropWhile isTrimChar l.reverse (fun x hx => h x (List.mem_reverse.2 hx))
    intro c hc
    exact h1 c (List.mem_reverse.2 hc)
  · intro h x hx
    have hx1 : x ∈ l.reverse := (List.dropWhile_sublist isTrimChar).subset (List.mem_reverse.1 hx)
    exact h x (List.mem_reverse.1 hx1)

theorem jsTrim_eq_empty_iff (str : String) :
    jsTrim str = "" ↔ ∀ c ∈ str.data, isTrimChar c = true := by
  rw [← trimChars_eq_nil_iff]
  constructor
  · intro h
    have := congrArg String.data h
    simpa [jsTrim] using this
  · intro h
    unfold jsTrim
    rw [h]

theorem trimChars_head (l : List Char) (c : Char)
    (h : (trimStartChars (trimEndChars l)).head? = some c) : isTrimChar c = false := by
  have := List.head?_dropWhile_not isTrimChar (trimEndChars l)
  unfold trimStartChars at h
  rw [h] at this
  simpa using this

theorem trimChars_getLast (l : List Char) (c : Char)
    (h : (trimStartChars (trimEndChars l)).getLast? = some c) : isTrimChar c = false := by
  have hne : trimStartChars (trimEndChars l) ≠ [] := by
    intro he; rw [he] at h; simp at h
  have hsuf : trimStartChars (trimEndChars l) <:+ trimEndChars l :=
    List.dropWhile_suffix isTrimChar
  have hne2 : trimEndChars l ≠ [] := by
    intro he; exact hne (by unfold trimStartChars; rw [he]; rfl)
  have hlast := hsuf.getLast hne
  have h1 : (trimEndChars l).getLast? = some c := by
    rw [List.getLast?_eq_getLast _ hne2, ← hlast, ← List.getLast?_eq_getLast _ hne]
    exact h
  unfold trimEndChars at h1
  rw [List.getLast?_reverse] at h1
  have := List.head?_dropWhile_not isTrimChar l.reverse
  rw [h1] at this
  simpa using this

/-! ## Submit validation -/

/-- C3. When the trimmed name is empty, a click on the (enabled) submit button
of an open dialog issues no request, shows "Le nom est requis." as inline
error, leaves the modal attached and the submit button enabled, and changes no
page element (so no option of the target control). -/
theorem submit_blank_name (s : Page) (d : Nat) (dlg : Dialog)
    (hd : s.dialogs[d]? = some dlg) (hen : dlg.submitDisabled = false)
    (hblank : jsTrim dlg.inputValue = "") :
    (submitClick s d).pending = s.pending ∧
    (submitClick s d).body = s.body ∧
    (submitClick s d).elems = s.elems ∧
    (submitClick s d).dialogs[d]? =
      some { dlg with errorText := "Le nom est requis.", errorHidden := false,
                      submitDisabled := false } := by
  simp [submitClick, submitHandler, hd, hen, hblank, setError, updDialog_get_self]

/-- C1 (amended). With `requiresParent` set and no parent value selected (the
parent control is missing or has an empty value, or no parent id is
configured), a click on the enabled submit button issues no request and leaves
the modal attached and the button enabled, provided a parent id is configured
or the trimmed name is empty. -/
theorem submit_missing_parent (s : Page) (d : Nat) (dlg : Dialog)
    (hd : s.dialogs[d]? = some dlg) (hen : dlg.submitDisabled = false)
    (hreq : dlg.config.requiresParent = true)
    (hpar : selectedParent s dlg.config = none)
    (hcfg : truthy dlg.config.parentSelectId = true ∨ jsTrim dlg.inputValue = "") :
    (submitClick s d).pending = s.pending ∧
    (submitClick s d).body = s.body ∧
    (submitClick s d).elems = s.elems ∧
    ∃ dlg', (submitClick s d).dialogs[d]? = some dlg' ∧ dlg'.submitDisabled = false ∧
      dlg'.errorHidden = false := by
  by_cases hblank : jsTrim dlg.inputValue = ""
  · simp [submitClick, submitHandler, hd, hen, hblank, setError, updDialog_get_self]
  · rcases hcfg with hcfg | hcfg
    · cases hp : dlg.config.parentSelectId with
      | none => rw [hp] at hcfg; simp [truthy] at hcfg
      | some pid =>
        rw [hp] at hcfg
        have hpid : pid ≠ "" := by simpa [truthy] using hcfg
        have hval : parentVal s pid = "" := by
          by_contra hv
          simp [selectedParent, hp, hpid, hv] at hpar
        have hmsg : jsOr dlg.config.parentRequiredMessage
            "Veuillez d'abord sélectionner un élément parent." ≠ "" :=
          jsOr_ne_empty _ _ (by decide)
        simp [submitClick, submitHandler, hd, hen, hblank, setError, setDisabled,
          updDialog_get, hp, truthy, hpid, toDOMString, hval, hreq, hmsg]
    · exact absurd hcfg hblank

/-- C4. With a non-empty trimmed name and a passing parent check, a click on
the enabled submit button issues exactly one request: to `config.apiUrl`, with
`model`, the trimmed name (which neither starts nor ends with a trim
character) and, exactly when a parent value is selected, that value as
`parent_id`. -/
theorem submit_issues_request (s : Page) (d : Nat) (dlg : Dialog)
    (hd : s.dialogs[d]? = some dlg) (hen : dlg.submitDisabled = false)
    (hname : jsTrim dlg.inputValue ≠ "")
    (hpar : dlg.config.requiresParent = true → truthy dlg.config.parentSelectId = true →
      selectedParent s dlg.config ≠ none) :
    (submitClick s d).pending = s.pending ++
      [{ dialog := d, url := dlg.config.apiUrl, method := "POST",
         body := [("model", dlg.config.model), ("name", jsTrim dlg.inputValue)] ++
           (match selectedParent s dlg.config with
            | some v => [("parent_id", v)]
            | none => []) }] ∧
    (∀ c, (jsTrim dlg.inputValue).data.head? = some c → isTrimChar c = false) ∧
    (∀ c, (jsTrim dlg.inputValue).data.getLast? = some c → isTrimChar c = false) := by
  refine ⟨?_, fun c hc => trimChars_head _ c hc, fun c hc => trimChars_getLast _ c hc⟩
  cases hp : dlg.config.parentSelectId with
  | none =>
    simp [submitClick, submitHandler, hd, hen, hname, setError, setDisabled,
      updDialog_get_self, hp, truthy, selectedParent, fetch]
  | some pid =>
    by_cases hpid : pid = ""
    · simp [submitClick, submitHandler, hd, hen, hname, setError, setDisabled,
        updDialog_get_self, hp, truthy, selectedParent, fetch, hpid]
    · by_cases hval : parentVal s pid = ""
      · have hnr : dlg.config.requiresParent = false := by
          by_contra hr
          have hr1 : dlg.config.requiresParent = true := by simpa using hr
          exact hpar hr1 (by simp [hp, truthy, hpid]) (by simp [selectedParent, hp, hpid, hval])
        simp [submitClick, submitHandler, hd, hen, hname, setError, setDisabled,
          updDialog_get_self, hp, truthy, selectedParent, fetch, hpid, hval, toDOMString, hnr]
      · simp [submitClick, submitHandler, hd, hen, hname, setError, setDisabled,
          updDialog_get_self, hp, truthy, selectedParent, fetch, hpid, hval, toDOMString]

/-! ## Response handling -/

/-- Text of the option built from a success body: the label when it is
truthy, the name otherwise. -/
theorem option_text (data : RespData) :
    (jsOrVal data.label data.name).toTextContent =
      if data.label.truthy = true then data.label.toTextContent
      else data.name.toTextContent := by
  unfold jsOrVal
  split <;> rfl

/-- Effect of the promise chain on a success response. -/
theorem settle_success (s : Page) (d : Nat) (dlg : Dialog) (e : Element) (data : RespData)
    (hd : s.dialogs[d]? = some dlg) (he : s.elems[dlg.selectEl]? = some e)
    (hs : data.success.truthy = true) :
    (∃ e', (settle s d (.parsed true (some data))).elems[dlg.selectEl]? = some e' ∧
      e'.options = e.options ++
        [{ value := data.id.toDOMString, text := (jsOrVal data.label data.name).toTextContent }] ∧
      e'.value = data.id.toDOMString) ∧
    (settle s d (.parsed true (some data))).notifierCalls = s.notifierCalls ++
      [(jsOr dlg.config.successMessage "Valeur ajoutée et sélectionnée.", "success")] ∧
    (settle s d (.parsed true (some data))).body = s.body.filter (fun m => m != d) ∧
    (settle s d (.parsed true (some data))).pending = s.pending := by
  obtain ⟨g, hg, hget⟩ := showToast_elems_get
    (setValue (appendOption s dlg.selectEl
        { value := data.id.toDOMString, text := (jsOrVal data.label data.name).toTextContent })
      dlg.selectEl data.id.toDOMString)
    (.str (jsOr dlg.config.successMessage "Valeur ajoutée et sélectionnée.")) none dlg.selectEl
  have h3 : (setValue (appendOption s dlg.selectEl
        { value := data.id.toDOMString, text := (jsOrVal data.label data.name).toTextContent })
      dlg.selectEl data.id.toDOMString).elems[dlg.selectEl]? =
      some { e with
        options := e.options ++ [{ value := data.id.toDOMString,
                                   text := (jsOrVal data.label data.name).toTextContent }],
        value := data.id.toDOMString } := by
    simp [setValue, appendOption, updElem_get, he]
    intro h
    exact absurd rfl (h _ (Or.inr rfl))
  rw [h3] at hget
  refine ⟨?_, ?_, ?_, ?_⟩
  · refine ⟨g { e with
        options := e.options ++ [{ value := data.id.toDOMString,
                                   text := (jsOrVal data.label data.name).toTextContent }],
        value := data.id.toDOMString }, ?_, ?_, ?_⟩
    · simp only [settle, onResponse, hd, hs, setDisabled, updDialog_elems]
      simp only [Bool.and_self, if_true, close]
      split <;> exact hget
    · rw [(hg _).1]
    · rw [(hg _).2.1]
  · simp only [settle, onResponse, hd, hs, setDisabled, updDialog_notifierCalls]
    simp only [Bool.and_self, if_true, close]
    split <;> simp [jsOr, setValue, appendOption]
  · simp only [settle, onResponse, hd, hs, setDisabled, updDialog_body]
    simp only [Bool.and_self, if_true, close]
    split <;> simp [setValue, appendOption]
  · simp only [settle, onResponse, hd, hs, setDisabled, updDialog_pending]
    simp only [Bool.and_self, if_true, close]
    split <;> simp [setValue, appendOption]

/-- A toast leaves the options and the value of every element as they were. -/
theorem showToast_choice (s : Page) (message : JsVal) (type : Option String) (k : Nat) :
    choiceAt (showToast s message type) k = choiceAt s k := by
  unfold choiceAt
  obtain ⟨g, hg, hget⟩ := showToast_elems_get s message type k
  rw [hget]
  cases s.elems[k]? with
  | none => rfl
  | some e => simp [(hg e).1, (hg e).2.1]

/-- Effect of the promise chain on a parsed response, not `null`, that is not
a success. -/
theorem settle_failure (s : Page) (d : Nat) (dlg : Dialog) (ok : Bool) (data : RespData)
    (hd : s.dialogs[d]? = some dlg) (hfail : ¬ (ok = true ∧ data.success.truthy = true)) :
    (∀ k, choiceAt (settle s d (.parsed ok (some data))) k = choiceAt s k) ∧
    (settle s d (.parsed ok (some data))).body = s.body ∧
    (settle s d (.parsed ok (some data))).pending = s.pending ∧
    (settle s d (.parsed ok (some data))).dialogs[d]? =
      some { dlg with
        errorText := (jsOrVal data.error (.str "Erreur lors de l'ajout.")).toTextContent,
        errorHidden := false, submitDisabled := false } ∧
    (settle s d (.parsed ok (some data))).notifierCalls =
      s.notifierCalls ++ [((jsOrVal data.error (.str "Erreur")).toTextContent, "error")] := by
  have hc : (ok && data.success.truthy) = false := by
    cases ok <;> simp at hfail ⊢
    exact hfail
  have hmsg : (jsOrVal data.error (.str "Erreur lors de l'ajout.")).truthy = true :=
    jsOrVal_truthy _ _ (by decide)
  refine ⟨fun k => ?_, ?_, ?_, ?_, ?_⟩
  · have h1 : choiceAt (settle s d (.parsed ok (some data))) k =
        choiceAt (showToast (setError s d (jsOrVal data.error (.str "Erreur lors de l'ajout.")))
          (jsOrVal data.error (.str "Erreur")) (some "error")) k := by
      simp [choiceAt, settle, onResponse, hd, hc, setDisabled]
    rw [h1, showToast_choice]
    simp [choiceAt, setError]
  · simp [settle, onResponse, hd, hc, setDisabled, setError]
  · simp [settle, onResponse, hd, hc, setDisabled, setError]
  · simp [settle, onResponse, hd, hc, setDisabled, setError, updDialog_get, hmsg]
  · simp [settle, onResponse, hd, hc, setDisabled, setError, jsOr]

/-- Effect of the `.catch` path of the promise chain. -/
theorem catch_effect (s : Page) (d : Nat) (dlg : Dialog) (hd : s.dialogs[d]? = some dlg) :
    (∀ k, choiceAt (setDisabled (onCatch s d) d false) k = choiceAt s k) ∧
    (setDisabled (onCatch s d) d false).body = s.body ∧
    (setDisabled (onCatch s d) d false).pending = s.pending ∧
    (setDisabled (onCatch s d) d false).dialogs[d]? =
      some { dlg with errorText := "Erreur réseau.", errorHidden := false,
                      submitDisabled := false } ∧
    (setDisabled (onCatch s d) d false).notifierCalls =
      s.notifierCalls ++ [("Erreur réseau.", "error")] := by
  refine ⟨fun k => ?_, ?_, ?_, ?_, ?_⟩
  · have h1 : choiceAt (setDisabled (onCatch s d) d false) k =
        choiceAt (showToast (setError s d (.str "Erreur réseau.")) (.str "Erreur réseau.")
          (some "error")) k := by
      simp [choiceAt, onCatch, setDisabled]
    rw [h1, showToast_choice]
    simp [choiceAt, setError]
  · simp [onCatch, setDisabled, setError]
  · simp [onCatch, setDisabled, setError]
  · simp [onCatch, setDisabled, setError, updDialog_get, hd]
  · simp [onCatch, setDisabled, setError, jsOr]

theorem filter_ne_not_mem (l : List Nat) (d : Nat) : d ∉ l.filter (fun m => m != d) := by
  simp

/-- C5. A response with transport success and `success: true` carrying id
`ident` appends exactly one option to the target control, after the options
it had: its value is `ident` and its text is the label when present and
non-empty (truthy), the name otherwise; the control then has value `ident`;
the notifier is called with the success message and severity success; the
modal of the dialog is no longer attached. -/
theorem success_response (s : Page) (i : Nat) (req : Request) (dlg : Dialog) (e : Element)
    (data : RespData) (ident : String)
    (hreq : s.pending[i]? = some req) (hd : s.dialogs[req.dialog]? = some dlg)
    (he : s.elems[dlg.selectEl]? = some e)
    (hs : data.success = .bool true) (hid : data.id = .str ident) :
    (∃ e', (resolve s i (.parsed true (some data))).elems[dlg.selectEl]? = some e' ∧
      e'.options = e.options ++
        [{ value := ident,
           text := if data.label.truthy = true then data.label.toTextContent
                   else data.name.toTextContent }] ∧
      e'.value = ident) ∧
    (resolve s i (.parsed true (some data))).notifierCalls = s.notifierCalls ++
      [(jsOr dlg.config.successMessage "Valeur ajoutée et sélectionnée.", "success")] ∧
    req.dialog ∉ (resolve s i (.parsed true (some data))).body ∧
    (resolve s i (.parsed true (some data))).pending = s.pending.eraseIdx i := by
  have h := settle_success { s with pending := s.pending.eraseIdx i } req.dialog dlg e data hd he
    (by rw [hs]; rfl)
  rw [option_text, hid] at h
  simp only [resolve, hreq]
  obtain ⟨h1, h2, h3, h4⟩ := h
  refine ⟨h1, h2, ?_, h4⟩
  rw [h3]
  exact filter_ne_not_mem _ _

/-- C6 (amended). A parsed response is handled as a creation success only if
the transport flag is ok, the body is not `null` and its success flag is
truthy. Every other parsed response appends no option (no element changes its
options or value) and leaves the modal attached and the submit button enabled
with an inline error shown; when its body carries a non-empty error message,
that text is the inline error and the notifier is called with it and severity
error. -/
theorem failure_response (s : Page) (i : Nat) (req : Request) (dlg : Dialog) (ok : Bool)
    (body : Option RespData)
    (hreq : s.pending[i]? = some req) (hd : s.dialogs[req.dialog]? = some dlg)
    (hfail : ¬ (ok = true ∧ ∃ data, body = some data ∧ data.success.truthy = true)) :
    (∀ k, choiceAt (resolve s i (.parsed ok body)) k = choiceAt s k) ∧
    (resolve s i (.parsed ok body)).body = s.body ∧
    ∃ dlg', (resolve s i (.parsed ok body)).dialogs[req.dialog]? = some dlg' ∧
      dlg'.submitDisabled = false ∧ dlg'.errorHidden = false ∧
      ∀ data msg, body = some data → data.error = .str msg → msg ≠ "" →
        dlg'.errorText = msg ∧
        (resolve s i (.parsed ok body)).notifierCalls =
          s.notifierCalls ++ [(msg, "error")] := by
  cases body with
  | none =>
    have h := catch_effect { s with pending := s.pending.eraseIdx i } req.dialog dlg hd
    simp only [resolve, hreq, settle]
    obtain ⟨h1, h2, _, h4, _⟩ := h
    refine ⟨h1, h2, _, h4, rfl, rfl, ?_⟩
    intro data msg hb
    cases hb
  | some data =>
    have hfail' : ¬ (ok = true ∧ data.success.truthy = true) :=
      fun hh => hfail ⟨hh.1, data, rfl, hh.2⟩
    have h := settle_failure { s with pending := s.pending.eraseIdx i } req.dialog dlg ok data
      hd hfail'
    simp only [resolve, hreq]
    obtain ⟨h1, h2, _, h4, h5⟩ := h
    refine ⟨h1, h2, _, h4, rfl, rfl, ?_⟩
    intro data' msg hb hmsg hne
    cases hb
    rw [h5]
    simp [hmsg, jsOrVal, hne]

/-- C7. When the request rejects or its body cannot be parsed, no option is
appended (no element changes its options or value), the modal stays attached,
the inline error is "Erreur réseau.", the submit button is enabled again and
the notifier is called once, with severity error. -/
theorem transport_failure (s : Page) (i : Nat) (req : Request) (dlg : Dialog) (o : Outcome)
    (hreq : s.pending[i]? = some req) (hd : s.dialogs[req.dialog]? = some dlg)
    (ho : o = .rejected ∨ ∃ ok, o = .unparseable ok) :
    (∀ k, choiceAt (resolve s i o) k = choiceAt s k) ∧
    (resolve s i o).body = s.body ∧
    (resolve s i o).dialogs[req.dialog]? =
      some { dlg with errorText := "Erreur réseau.", errorHidden := false,
                      submitDisabled := false } ∧
    (resolve s i o).notifierCalls = s.notifierCalls ++ [("Erreur réseau.", "error")] := by
  have h := catch_effect { s with pending := s.pending.eraseIdx i } req.dialog dlg hd
  obtain ⟨h1, h2, _, h4, h5⟩ := h
  rcases ho with rfl | ⟨ok, rfl⟩ <;>
  · simp only [resolve, hreq, settle]
    exact ⟨h1, h2, h4, h5⟩

/-- C2 (amended). When the dialog is closed by a cancel or backdrop click
while its request is in flight and a success response then arrives, the
response is applied all the same: the option is appended to the target control
and becomes its value; only the removal of the modal has nothing left to do. -/
theorem late_success_applied (s : Page) (i : Nat) (req : Request) (dlg : Dialog) (e : Element)
    (data : RespData) (ident : String) (ev : Event)
    (hev : ev = .cancelClick req.dialog ∨ ev = .backdropClick req.dialog)
    (hreq : s.pending[i]? = some req) (hd : s.dialogs[req.dialog]? = some dlg)
    (he : s.elems[dlg.selectEl]? = some e)
    (hs : data.success = .bool true) (hid : data.id = .str ident) :
    req.dialog ∉ (step s ev).body ∧
    (∃ e', (resolve (step s ev) i (.parsed true (some data))).elems[dlg.selectEl]? = some e' ∧
      e'.options = e.options ++
        [{ value := ident,
           text := if data.label.truthy = true then data.label.toTextContent
                   else data.name.toTextContent }] ∧
      e'.value = ident) ∧
    (resolve (step s ev) i (.parsed true (some data))).body = (step s ev).body := by
  have hstep : step s ev = close s req.dialog := by
    rcases hev with rfl | rfl <;> rfl
  rw [hstep]
  have h := settle_success { close s req.dialog with pending := s.pending.eraseIdx i }
    req.dialog dlg e data hd he (by rw [hs]; rfl)
  rw [option_text, hid] at h
  have hreq' : (close s req.dialog).pending[i]? = some req := hreq
  simp only [resolve, hreq']
  obtain ⟨h1, _, h3, _⟩ := h
  refine ⟨filter_ne_not_mem _ _, h1, h3.trans ?_⟩
  simp [close]

/-! ## Frame of each handler on the modal list -/

theorem submitHandler_body (s : Page) (d : Nat) : (submitHandler s d).body = s.body := by
  unfold submitHandler
  split
  · rfl
  · dsimp only
    repeat' split
    all_goals simp [setError, setDisabled, fetch]

theorem submitHandler_length (s : Page) (d : Nat) :
    (submitHandler s d).dialogs.length = s.dialogs.length := by
  unfold submitHandler
  split
  · rfl
  · dsimp only
    repeat' split
    all_goals simp [setError, setDisabled, fetch]

theorem settle_length (s : Page) (d : Nat) (o : Outcome) :
    (settle s d o).dialogs.length = s.dialogs.length := by
  cases o with
  | rejected => simp [settle, onCatch, setDisabled, setError]
  | unparseable ok => simp [settle, onCatch, setDisabled, setError]
  | parsed ok data =>
    cases data with
    | none => simp [settle, onCatch, setDisabled, setError]
    | some data =>
      simp only [settle, setDisabled, updDialog_length, onResponse]
      repeat' split
      all_goals simp [setError, close, setValue, appendOption]

theorem settle_body (s : Page) (d : Nat) (o : Outcome) :
    (settle s d o).body = s.body ∨ (settle s d o).body = s.body.filter (fun m => m != d) := by
  cases o with
  | rejected => left; simp [settle, onCatch, setDisabled, setError]
  | unparseable ok => left; simp [settle, onCatch, setDisabled, setError]
  | parsed ok data =>
    cases data with
    | none => left; simp [settle, onCatch, setDisabled, setError]
    | some data =>
      simp only [settle, setDisabled, updDialog_body, onResponse]
      split
      · left; rfl
      · split
        · right
          split <;> simp [close, setValue, appendOption]
        · left; simp [setError]

/-- Every event other than opening a dialog keeps the modal instances and
can only detach modals. -/
theorem step_body (s : Page) (ev : Event) :
    (∃ sel cfg cb, step s ev = createModal s sel cfg cb) ∨
    ((step s ev).dialogs.length = s.dialogs.length ∧
      ∃ p : Nat → Bool, (step s ev).body = s.body.filter p) := by
  cases ev with
  | addClick b =>
    simp only [step]
    split
    · next a _ => exact Or.inl ⟨a.selectEl, a.config, false, rfl⟩
    · exact Or.inr ⟨rfl, fun _ => true, by simp⟩
  | typeName d text => exact Or.inr ⟨by simp [step], fun _ => true, by simp [step]⟩
  | selectValue r v => exact Or.inr ⟨by simp [step, setValue], fun _ => true, by simp [step, setValue]⟩
  | cancelClick d => exact Or.inr ⟨rfl, fun m => m != d, rfl⟩
  | backdropClick d => exact Or.inr ⟨rfl, fun m => m != d, rfl⟩
  | submitClick d =>
    right
    simp only [step, submitClick]
    split
    · exact ⟨rfl, fun _ => true, by simp⟩
    · split
      · exact ⟨rfl, fun _ => true, by simp⟩
      · exact ⟨submitHandler_length s d, fun _ => true, by simp [submitHandler_body]⟩
  | resolve i o =>
    right
    simp only [step, resolve]
    split
    · exact ⟨rfl, fun _ => true, by simp⟩
    · next req _ =>
      refine ⟨settle_length _ _ _, ?_⟩
      rcases settle_body { s with pending := s.pending.eraseIdx i } req.dialog o with h | h
      · exact ⟨fun _ => true, by rw [h]; simp⟩
      · exact ⟨fun m => m != req.dialog, h⟩

theorem createModal_body (s : Page) (h : ModalInv s) (sel : Nat) (cfg : Config) (cb : Bool) :
    (createModal s sel cfg cb).body = [s.dialogs.length] := by
  obtain ⟨h1, _⟩ := h
  unfold createModal
  match hb : s.body with
  | [] => simp
  | [m] => simp
  | _ :: _ :: _ => rw [hb] at h1; simp at h1

theorem ModalInv_step (s : Page) (h : ModalInv s) (ev : Event) : ModalInv (step s ev) := by
  rcases step_body s ev with ⟨sel, cfg, cb, hc⟩ | ⟨hl, p, hb⟩
  · rw [hc]
    refine ⟨by rw [createModal_body s h]; simp, ?_⟩
    rw [createModal_body s h]
    intro m hm
    simp at hm
    subst hm
    simp [createModal]
  · refine ⟨?_, ?_⟩
    · rw [hb]
      exact le_trans (List.length_filter_le _ _) h.1
    · intro m hm
      rw [hb] at hm
      rw [hl]
      exact h.2 m (List.mem_filter.1 hm).1

theorem ModalInv_run (es : List Event) : ∀ s : Page, ModalInv s → ModalInv (run s es) := by
  induction es with
  | nil => intro s h; exact h
  | cons ev es ih => intro s h; exact ih (step s ev) (ModalInv_step s h ev)

/-- C8. Starting from a page without modal, after any sequence of events the
document holds at most one inline-creation modal; opening a dialog then leaves
exactly the newly built modal attached, and it is none of those attached
before. -/
theorem single_modal (s0 : Page) (h0 : s0.body = []) (es : List Event) :
    (run s0 es).body.length ≤ 1 ∧
    ∀ sel cfg cb,
      (createModal (run s0 es) sel cfg cb).body = [(run s0 es).dialogs.length] ∧
      (run s0 es).dialogs.length ∉ (run s0 es).body := by
  have hinv : ModalInv (run s0 es) := ModalInv_run es s0 ⟨by simp [h0], by simp [h0]⟩
  refine ⟨hinv.1, fun sel cfg cb => ⟨createModal_body _ hinv sel cfg cb, ?_⟩⟩
  intro hm
  exact Nat.lt_irrefl _ (hinv.2 _ hm)

/-! ## Requests in flight -/

theorem submitHandler_get_ne (s : Page) (d k : Nat) (h : d ≠ k) :
    (submitHandler s d).dialogs[k]? = s.dialogs[k]? := by
  unfold submitHandler
  split
  · rfl
  · dsimp only
    repeat' split
    all_goals simp [setError, setDisabled, fetch, updDialog_get, h]

theorem fetch_issue (s : Page) (d : Nat) (dlg : Dialog) (hd : s.dialogs[d]? = some dlg)
    (url : String) (payload : List (String × String)) :
    ∃ r, (fetch (setDisabled (setError s d (.str "")) d true) d url payload).pending =
        s.pending ++ [r] ∧ r.dialog = d ∧
      ∃ dlg', (fetch (setDisabled (setError s d (.str "")) d true) d url payload).dialogs[d]? =
        some dlg' ∧ dlg'.submitDisabled = true :=
  ⟨⟨d, url, "POST", payload⟩, by simp [fetch, setDisabled, setError], rfl,
    by simp [fetch, setDisabled, setError, updDialog_get, hd]⟩

/-- The submit listener either issues nothing, or issues one request of its
own dialog and leaves the submit button disabled. -/
theorem submitHandler_pending (s : Page) (d : Nat) :
    (submitHandler s d).pending = s.pending ∨
    ∃ r, (submitHandler s d).pending = s.pending ++ [r] ∧ r.dialog = d ∧
      ∃ dlg, (submitHandler s d).dialogs[d]? = some dlg ∧ dlg.submitDisabled = true := by
  unfold submitHandler
  split
  · left; rfl
  · next dlg hd =>
    dsimp only
    split
    · left; simp [setError]
    · split
      · split
        · right; exact fetch_issue s d dlg hd _ _
        · split
          · left; simp [setError, setDisabled]
          · right; exact fetch_issue s d dlg hd _ _
      · right; exact fetch_issue s d dlg hd _ _

theorem settle_pending (s : Page) (d : Nat) (o : Outcome) :
    (settle s d o).pending = s.pending := by
  cases o with
  | rejected => simp [settle, onCatch, setDisabled, setError]
  | unparseable ok => simp [settle, onCatch, setDisabled, setError]
  | parsed ok data =>
    cases data with
    | none => simp [settle, onCatch, setDisabled, setError]
    | some data =>
      simp only [settle, setDisabled, updDialog_pending, onResponse]
      repeat' split
      all_goals simp [setError, close, setValue, appendOption]

theorem settle_get_ne (s : Page) (d k : Nat) (o : Outcome) (h : d ≠ k) :
    (settle s d o).dialogs[k]? = s.dialogs[k]? := by
  cases o with
  | rejected => simp [settle, onCatch, setDisabled, setError, updDialog_get, h]
  | unparseable ok => simp [settle, onCatch, setDisabled, setError, updDialog_get, h]
  | parsed ok data =>
    cases data with
    | none => simp [settle, onCatch, setDisabled, setError, updDialog_get, h]
    | some data =>
      simp only [settle, setDisabled, updDialog_get, h, if_false, onResponse]
      repeat' split
      all_goals simp [setError, close, setValue, appendOption, updDialog_get, h]

theorem filter_eraseIdx_length {α : Type} (p : α → Bool) :
    ∀ (l : List α) (i : Nat) (a : α), l[i]? = some a →
      ((l.eraseIdx i).filter p).length + (if p a then 1 else 0) = (l.filter p).length
  | [], i, a, h => by simp at h
  | x :: l, 0, a, h => by
    simp at h
    subst h
    by_cases hx : p x <;> simp [hx]
  | x :: l, i + 1, a, h => by
    have ih := filter_eraseIdx_length p l i a (by simpa using h)
    by_cases hx : p x <;> simp [hx] <;> omega

/-- A page state that differs only in its modal instances, keeping the submit
state of every one, keeps the invariant. -/
theorem FlightInv_of_same (s s' : Page) (h : FlightInv s) (hp : s'.pending = s.pending)
    (hd : ∀ (d : Nat) (dlg : Dialog), s.dialogs[d]? = some dlg → dlg.submitDisabled = true →
      ∃ dlg' : Dialog, s'.dialogs[d]? = some dlg' ∧ dlg'.submitDisabled = true) :
    FlightInv s' := by
  intro d
  have hf : inFlight s' d = inFlight s d := by simp [inFlight, hp]
  rcases h d with h0 | ⟨h1, dlg, hdlg, hdis⟩
  · left; rw [hf]; exact h0
  · right; rw [hf]; exact ⟨h1, hd d dlg hdlg hdis⟩

theorem FlightInv_createModal (s : Page) (h : FlightInv s) (sel : Nat) (cfg : Config)
    (cb : Bool) : FlightInv (createModal s sel cfg cb) := by
  refine FlightInv_of_same s _ h rfl ?_
  intro d dlg hdlg hdis
  refine ⟨dlg, ?_, hdis⟩
  have hlt : d < s.dialogs.length := by
    rcases Nat.lt_or_ge d s.dialogs.length with h1 | h1
    · exact h1
    · rw [List.getElem?_eq_none h1] at hdlg; cases hdlg
  simp only [createModal]
  rw [List.getElem?_append_left hlt]
  exact hdlg

theorem FlightInv_submitClick (s : Page) (h : FlightInv s) (d' : Nat) :
    FlightInv (submitClick s d') := by
  unfold submitClick
  split
  · exact h
  · next dlg' hd' =>
    split
    · exact h
    · next hen =>
      have h0 : inFlight s d' = 0 := by
        rcases h d' with h0 | ⟨_, dlg, hdlg, hdis⟩
        · exact h0
        · rw [hd'] at hdlg; cases hdlg; exact absurd hdis hen
      intro d
      by_cases hdd : d' = d
      · subst hdd
        rcases submitHandler_pending s d' with hp | ⟨r, hp, hr, hdis⟩
        · left; simp [inFlight, hp]; simpa [inFlight] using h0
        · right
          refine ⟨?_, hdis⟩
          have : inFlight (submitHandler s d') d' = inFlight s d' + 1 := by
            simp [inFlight, hp, List.filter_append, hr]
          rw [this, h0]
      · have hf : inFlight (submitHandler s d') d = inFlight s d := by
          rcases submitHandler_pending s d' with hp | ⟨r, hp, hr, _⟩
          · simp [inFlight, hp]
          · simp [inFlight, hp, List.filter_append, hr, hdd]
        rw [hf, submitHandler_get_ne s d' d hdd]
        exact h d

theorem FlightInv_resolve (s : Page) (h : FlightInv s) (i : Nat) (o : Outcome) :
    FlightInv (resolve s i o) := by
  unfold resolve
  split
  · exact h
  · next req hreq =>
    intro d
    have hcount := filter_eraseIdx_length (fun r : Request => decide (r.dialog = d))
      s.pending i req hreq
    have hf : inFlight (settle { s with pending := s.pending.eraseIdx i } req.dialog o) d =
        ((s.pending.eraseIdx i).filter (fun r : Request => decide (r.dialog = d))).length := by
      simp [inFlight, settle_pending]
    rw [hf]
    by_cases hdd : req.dialog = d
    · left
      have hs : inFlight s d ≤ 1 := by
        rcases h d with h0 | ⟨h1, _⟩ <;> omega
      simp only [inFlight] at hs
      simp only [hdd, decide_True, if_true] at hcount
      omega
    · simp only [hdd, decide_False, Bool.false_eq_true, if_false, Nat.add_zero] at hcount
      rw [hcount, settle_get_ne _ _ _ _ hdd]
      exact h d

theorem FlightInv_step (s : Page) (h : FlightInv s) (ev : Event) : FlightInv (step s ev) := by
  cases ev with
  | addClick b =>
    simp only [step]
    split
    · exact FlightInv_createModal s h _ _ _
    · exact h
  | typeName d text =>
    refine FlightInv_of_same s _ h (by simp [step]) ?_
    intro k dlg hdlg hdis
    simp only [step, updDialog_get]
    split
    · exact ⟨{ dlg with inputValue := text }, by rw [hdlg]; rfl, hdis⟩
    · exact ⟨dlg, hdlg, hdis⟩
  | selectValue r v =>
    refine FlightInv_of_same s _ h (by simp [step, setValue]) ?_
    intro k dlg hdlg hdis
    exact ⟨dlg, by simpa [step, setValue] using hdlg, hdis⟩
  | cancelClick d => exact FlightInv_of_same s _ h rfl (fun k dlg hdlg hdis => ⟨dlg, hdlg, hdis⟩)
  | backdropClick d => exact FlightInv_of_same s _ h rfl (fun k dlg hdlg hdis => ⟨dlg, hdlg, hdis⟩)
  | submitClick d => exact FlightInv_submitClick s h d
  | resolve i o => exact FlightInv_resolve s h i o

theorem FlightInv_run (es : List Event) : ∀ s : Page, FlightInv s → FlightInv (run s es) := by
  induction es with
  | nil => intro s h; exact h
  | cons ev es ih => intro s h; exact ih (step s ev) (FlightInv_step s h ev)

/-- C10. Starting from a page with no request in flight, in every state
reached by any sequence of events each dialog has at most one request in
flight, its submit button is disabled whenever one is in flight, and a submit
click then changes nothing, so no second request is issued before the first
settles. -/
theorem one_request_in_flight (s0 : Page) (h0 : s0.pending = []) (es : List Event) (d : Nat) :
    inFlight (run s0 es) d ≤ 1 ∧
    (0 < inFlight (run s0 es) d →
      (∃ dlg, (run s0 es).dialogs[d]? = some dlg ∧ dlg.submitDisabled = true) ∧
      step (run s0 es) (.submitClick d) = run s0 es) := by
  have hinv : FlightInv (run s0 es) :=
    FlightInv_run es s0 (fun k => Or.inl (by simp [inFlight, h0]))
  rcases hinv d with h | ⟨h1, dlg, hdlg, hdis⟩
  · exact ⟨by omega, fun hpos => by omega⟩
  · refine ⟨by omega, fun _ => ⟨⟨dlg, hdlg, hdis⟩, ?_⟩⟩
    simp [step, submitClick, hdlg, hdis]

/-! ## Bulk initialisation -/

theorem initMarker_elems (s : Page) (el : Marker) : (initMarker s el).elems = s.elems := by
  unfold initMarker init
  repeat' split
  all_goals rfl

theorem initMarker_augments (s : Page) (el : Marker) :
    (initMarker s el).augments.map (fun a => a.selectEl) =
      s.augments.map (fun a => a.selectEl) ++ (markerTarget s el).toList := by
  unfold markerTarget eligible initMarker markerOptions
  by_cases hc : (el.create = "true" ∨ el.create = "1")
  · have hc' : ¬ (¬ el.create = "true" ∧ ¬ el.create = "1") := by tauto
    by_cases hsel : truthy el.select = true
    · by_cases hm : truthy el.model = true
      · cases hg : getElementById s (toDOMString el.select) with
        | none => simp [hc, hc', hsel, hm, init, hg]
        | some r => simp [hc, hc', hsel, hm, init, hg]
      · simp [hc, hc', hsel, hm]
    · simp [hc, hc', hsel]
  · have hc' : ¬ el.create = "true" ∧ ¬ el.create = "1" := by tauto
    simp [hc, hc']

theorem markerTarget_congr (s s' : Page) (h : s'.elems = s.elems) (el : Marker) :
    markerTarget s' el = markerTarget s el := by
  simp [markerTarget, eligible, getElementById, h]

theorem foldl_initMarker (ms : List Marker) : ∀ s : Page,
    (ms.foldl initMarker s).augments.map (fun a => a.selectEl) =
      s.augments.map (fun a => a.selectEl) ++ ms.filterMap (markerTarget s) ∧
    (ms.foldl initMarker s).elems = s.elems := by
  induction ms with
  | nil => intro s; simp
  | cons el ms ih =>
    intro s
    obtain ⟨h1, h2⟩ := ih (initMarker s el)
    rw [List.foldl_cons, h1, h2, initMarker_augments, initMarker_elems]
    refine ⟨?_, rfl⟩
    have hcongr : List.filterMap (markerTarget (initMarker s el)) ms =
        List.filterMap (markerTarget s) ms := by
      congr 1
      funext m
      exact markerTarget_congr s _ (initMarker_elems s el) m
    rw [hcongr, List.append_assoc]
    congr 1
    cases h : markerTarget s el <;> simp [List.filterMap_cons, h]

theorem length_filterMap_markerTarget (s : Page) (ms : List Marker) :
    (ms.filterMap (markerTarget s)).length = ms.countP (eligible s) := by
  induction ms with
  | nil => rfl
  | cons el ms ih =>
    by_cases he : eligible s el = true
    · have : ∃ r, markerTarget s el = some r := by
        have hg : (getElementById s (toDOMString el.select)).isSome = true := by
          simp [eligible] at he; exact he.2
        obtain ⟨r, hr⟩ := Option.isSome_iff_exists.1 hg
        exact ⟨r, by simp [markerTarget, he, hr]⟩
      obtain ⟨r, hr⟩ := this
      simp [List.filterMap_cons, hr, he, ih]
    · have : markerTarget s el = none := by simp [markerTarget, he]
      simp [List.filterMap_cons, this, he, ih]

theorem lookupId_some (id : String) : ∀ (l : List Element) (r : Nat),
    lookupId id l = some r → ∃ e, l[r]? = some e ∧ e.id = id
  | [], r, h => by simp [lookupId] at h
  | x :: l, r, h => by
    unfold lookupId at h
    split at h
    · next hx =>
      cases h
      exact ⟨x, by simp, hx⟩
    · cases hl : lookupId id l with
      | none => rw [hl] at h; simp at h
      | some k =>
        rw [hl] at h
        simp at h
        subst h
        obtain ⟨e, he, hid⟩ := lookupId_some id l k hl
        exact ⟨e, by simpa using he, hid⟩

/-- The control of an eligible marker carries the select id of the marker. -/
theorem markerTarget_id (s : Page) (el : Marker) (r : Nat) (h : markerTarget s el = some r) :
    ∃ e, s.elems[r]? = some e ∧ some e.id = el.select := by
  unfold markerTarget at h
  split at h
  · next he =>
    have hsel : truthy el.select = true := by
      simp [eligible] at he; exact he.1.1.2
    cases hs : el.select with
    | none => rw [hs] at hsel; simp [truthy] at hsel
    | some v =>
      rw [hs] at h
      unfold getElementById at h
      split at h
      · cases h
      · obtain ⟨e, he1, he2⟩ := lookupId_some _ _ _ h
        exact ⟨e, he1, by simpa [toDOMString] using he2⟩
  · cases h

/-- C9. `initAll` augments, in document order, exactly the controls of the
markers whose flag is "true" or "1", whose select id and model are non-empty
and whose control exists: one augmentation per such marker and none for any
other; so with three markers, two of them eligible and one with another flag
value, exactly two augmentations are made, on the controls of the two eligible
markers, which are two controls when the markers name different select ids. -/
theorem initAll_augments (s : Page) :
    (initAll s).augments.map (fun a => a.selectEl) =
      s.augments.map (fun a => a.selectEl) ++ s.markers.filterMap (markerTarget s) ∧
    (initAll s).augments.length = s.augments.length + s.markers.countP (eligible s) ∧
    ∀ a b c : Marker, s.markers.Perm [a, b, c] → eligible s a = true → eligible s b = true →
      c.create ≠ "true" → c.create ≠ "1" →
      (initAll s).augments.length = s.augments.length + 2 ∧
      ∃ ra rb, markerTarget s a = some ra ∧ markerTarget s b = some rb ∧
        ((initAll s).augments.map (fun x => x.selectEl)).Perm
          (s.augments.map (fun x => x.selectEl) ++ [ra, rb]) ∧
        (a.select ≠ b.select → ra ≠ rb) := by
  have h1 := (foldl_initMarker s.markers s).1
  have h2 : (initAll s).augments.length = s.augments.length + s.markers.countP (eligible s) := by
    have := congrArg List.length h1
    simpa [length_filterMap_markerTarget, initAll] using this
  refine ⟨h1, h2, ?_⟩
  intro a b c hperm ha hb hc1 hc2
  have hc : eligible s c = false := by simp [eligible, hc1, hc2]
  refine ⟨?_, ?_⟩
  · rw [h2, hperm.countP_eq]
    simp [List.countP_cons, ha, hb, hc]
  · have hta : ∃ ra, markerTarget s a = some ra := by
      have hg : (getElementById s (toDOMString a.select)).isSome = true := by
        simp [eligible] at ha; exact ha.2
      obtain ⟨r, hr⟩ := Option.isSome_iff_exists.1 hg
      exact ⟨r, by simp [markerTarget, ha, hr]⟩
    have htb : ∃ rb, markerTarget s b = some rb := by
      have hg : (getElementById s (toDOMString b.select)).isSome = true := by
        simp [eligible] at hb; exact hb.2
      obtain ⟨r, hr⟩ := Option.isSome_iff_exists.1 hg
      exact ⟨r, by simp [markerTarget, hb, hr]⟩
    obtain ⟨ra, hra⟩ := hta
    obtain ⟨rb, hrb⟩ := htb
    have htc : markerTarget s c = none := by simp [markerTarget, hc]
    refine ⟨ra, rb, hra, hrb, ?_, ?_⟩
    · have hp : (s.markers.filterMap (markerTarget s)).Perm
          ([a, b, c].filterMap (markerTarget s)) := hperm.filterMap _
      have hl : [a, b, c].filterMap (markerTarget s) = [ra, rb] := by
        simp [List.filterMap_cons, hra, hrb, htc]
      rw [hl] at hp
      have h1' : (initAll s).augments.map (fun a => a.selectEl) =
          s.augments.map (fun a => a.selectEl) ++ s.markers.filterMap (markerTarget s) := h1
      rw [h1']
      exact hp.append_left _
    · intro hne heq
      subst heq
      obtain ⟨e1, he1, hid1⟩ := markerTarget_id s a ra hra
      obtain ⟨e2, he2, hid2⟩ := markerTarget_id s b ra hrb
      rw [he1] at he2
      cases he2
      exact hne (hid1.symm.trans hid2)

/-! ## The theorems on the sample page -/

/-- C1, as stated, fails: the department dialog requires a parent, names no
parent control and has no parent value, yet a submit click with name "x"
issues a request. -/
theorem submit_without_parent_id_issues_request :
    deptTyped.dialogs[0]? = some (typedDialog 0 deptConfig "x") ∧
    deptConfig.requiresParent = true ∧
    selectedParent deptTyped deptConfig = none ∧
    deptTyped.body = [0] ∧
    deptTyped.pending = [] ∧
    (submitClick deptTyped 0).pending =
      [{ dialog := 0, url := "/api/reference/create/", method := "POST",
         body := [("model", "department"), ("name", "x")] }] := by
  decide

/-- The team dialog with no department selected: the submit click issues nothing. -/
theorem submit_missing_parent_witness :
    (submitClick teamNoParent 0).pending = teamNoParent.pending ∧
    (submitClick teamNoParent 0).body = teamNoParent.body ∧
    (submitClick teamNoParent 0).elems = teamNoParent.elems ∧
    ∃ dlg', (submitClick teamNoParent 0).dialogs[0]? = some dlg' ∧
      dlg'.submitDisabled = false ∧ dlg'.errorHidden = false :=
  submit_missing_parent teamNoParent 0 (typedDialog 1 teamConfig "Core")
    (by decide) (by decide) (by decide) (by decide) (Or.inl (by decide))

/-- C2, as stated, fails: the team dialog is cancelled while its request is in
flight, and the success response that follows still appends and selects the
option. -/
theorem late_success_not_discarded :
    (step teamSubmitted (.cancelClick 0)).body = [] ∧
    (step teamSubmitted (.cancelClick 0)).pending = [teamRequest] ∧
    choiceAt (step teamSubmitted (.cancelClick 0)) 1 = some ([], "") ∧
    choiceAt (resolve (step teamSubmitted (.cancelClick 0)) 0
      (.parsed true (some createdBody))) 1 = some ([{ value := "42", text := "Core" }], "42") := by
  decide

/-- The team dialog cancelled while its request is in flight: the late success
is applied. -/
theorem late_success_applied_witness :
    0 ∉ (step teamSubmitted (.cancelClick 0)).body ∧
    (∃ e', (resolve (step teamSubmitted (.cancelClick 0)) 0
        (.parsed true (some createdBody))).elems[1]? = some e' ∧
      e'.options = [] ++ [{ value := "42", text := "Core" }] ∧ e'.value = "42") ∧
    (resolve (step teamSubmitted (.cancelClick 0)) 0 (.parsed true (some createdBody))).body =
      (step teamSubmitted (.cancelClick 0)).body :=
  late_success_applied teamSubmitted 0 teamRequest
    { typedDialog 1 teamConfig " Core " with submitDisabled := true }
    { id := "id_team", value := "", options := [], toasts := [] } createdBody "42"
    (.cancelClick 0) (Or.inl rfl) (by decide) (by decide) (by decide) (by decide) (by decide)

/-- The department dialog with only blanks typed: the name-required error. -/
theorem submit_blank_name_witness :
    (submitClick deptBlank 0).pending = deptBlank.pending ∧
    (submitClick deptBlank 0).body = deptBlank.body ∧
    (submitClick deptBlank 0).elems = deptBlank.elems ∧
    (submitClick deptBlank 0).dialogs[0]? =
      some { typedDialog 0 deptConfig "  \t " with
             errorText := "Le nom est requis.", errorHidden := false, submitDisabled := false } :=
  submit_blank_name deptBlank 0 (typedDialog 0 deptConfig "  \t ")
    (by decide) (by decide) (by decide)

/-- The team dialog with department 7 selected: one request, trimmed name and
`parent_id`. -/
theorem submit_issues_request_witness :
    (submitClick teamTyped 0).pending = teamTyped.pending ++ [teamRequest] :=
  (submit_issues_request teamTyped 0 (typedDialog 1 teamConfig " Core ")
    (by decide) (by decide) (by decide) (by decide)).1

/-- The team request answered with a success body. -/
theorem success_response_witness :
    (∃ e', (resolve teamSubmitted 0 (.parsed true (some createdBody))).elems[1]? = some e' ∧
      e'.options = [] ++ [{ value := "42", text := "Core" }] ∧ e'.value = "42") ∧
    (resolve teamSubmitted 0 (.parsed true (some createdBody))).notifierCalls =
      [] ++ [("Valeur ajoutée et sélectionnée.", "success")] ∧
    0 ∉ (resolve teamSubmitted 0 (.parsed true (some createdBody))).body ∧
    (resolve teamSubmitted 0 (.parsed true (some createdBody))).pending = [] :=
  success_response teamSubmitted 0 teamRequest
    { typedDialog 1 teamConfig " Core " with submitDisabled := true }
    { id := "id_team", value := "", options := [], toasts := [] } createdBody "42"
    (by decide) (by decide) (by decide) (by decide) (by decide)

/-- C6, as stated, fails: a body whose success flag is the string "false" and
which carries the error message "Name taken" is handled as a success; the
option is appended and selected, the modal is removed and the notifier is
called with severity success. -/
theorem string_flag_handled_as_success :
    stringFlagBody.success ≠ .bool true ∧
    stringFlagBody.error = .str "Name taken" ∧
    teamSubmitted.pending = [teamRequest] ∧
    teamSubmitted.body = [0] ∧
    choiceAt teamSubmitted 1 = some ([], "") ∧
    choiceAt (resolve teamSubmitted 0 (.parsed true (some stringFlagBody))) 1 =
      some ([{ value := "42", text := "Core" }], "42") ∧
    (resolve teamSubmitted 0 (.parsed true (some stringFlagBody))).body = [] ∧
    (resolve teamSubmitted 0 (.parsed true (some stringFlagBody))).notifierCalls =
      [("Valeur ajoutée et sélectionnée.", "success")] := by
  decide

/-- The team request answered with a failure body. -/
theorem failure_response_witness :
    choiceAt (resolve teamSubmitted 0 (.parsed true (some refusedBody))) 1 =
      choiceAt teamSubmitted 1 ∧
    (resolve teamSubmitted 0 (.parsed true (some refusedBody))).body = teamSubmitted.body :=
  ⟨(failure_response teamSubmitted 0 teamRequest
      { typedDialog 1 teamConfig " Core " with submitDisabled := true } true (some refusedBody)
      (by decide) (by decide) (by decide)).1 1,
   (failure_response teamSubmitted 0 teamRequest
      { typedDialog 1 teamConfig " Core " with submitDisabled := true } true (some refusedBody)
      (by decide) (by decide) (by decide)).2.1⟩

/-- The team request rejected by the network. -/
theorem transport_failure_witness :
    (resolve teamSubmitted 0 .rejected).notifierCalls = [] ++ [("Erreur réseau.", "error")] :=
  (transport_failure teamSubmitted 0 teamRequest
    { typedDialog 1 teamConfig " Core " with submitDisabled := true } .rejected
    (by decide) (by decide) (Or.inl rfl)).2.2.2

/-- Two dialogs opened in a row on the sample page. -/
theorem single_modal_witness :
    (run samplePage [.addClick 0, .typeName 0 "x", .addClick 1]).body.length ≤ 1 :=
  (single_modal samplePage (by decide) [.addClick 0, .typeName 0 "x", .addClick 1]).1

/-- The sample form: two enabled markers and a disabled one. -/
theorem initAll_augments_witness :
    (initAll sampleLoaded).augments.length = sampleLoaded.augments.length + 2 :=
  ((initAll_augments sampleLoaded).2.2 deptMarker teamMarker roleMarker
    (by decide) (by decide) (by decide) (by decide) (by decide)).1

/-- Two submit clicks in a row on the team dialog. -/
theorem one_request_in_flight_witness :
    inFlight (run samplePage [.selectValue 0 "7", .addClick 1, .typeName 0 " Core ",
      .submitClick 0, .submitClick 0]) 0 ≤ 1 :=
  (one_request_in_flight samplePage (by decide)
    [.selectValue 0 "7", .addClick 1, .typeName 0 " Core ", .submitClick 0, .submitClick 0] 0).1

end InlineCreateSelect
